import Mathlib

/-!
Shallow embedding of the lead-QA rule engine and analyser
(`rules_engine.py`, `analyser.py`).

Strings are modelled by Lean `String` (a packed `List Char`), with the
Python string primitives used by the source (`str.strip`, `str.lower`,
`str.replace`, substring search, `re` patterns specialised to the concrete
regexes of the source) re-implemented character-by-character below.
Python `None` is `Option.none`; a Python `float` bill is modelled by `ℚ`;
a pandas cell that may be missing is an `Option`.  `splitlines` is
modelled as splitting at the newline character (the source's rule files
use plain newlines; a carriage return left by a CRLF file is removed by
the subsequent `strip`, exactly as in Python).
-/

/-- Python whitespace for `str.strip` and the regex class `\s`
(space, tab, newline, carriage return, vertical tab, form feed). -/
def isPySpace (c : Char) : Bool :=
  c = ' ' || c = Char.ofNat 9 || c = Char.ofNat 10 || c = Char.ofNat 13 ||
  c = Char.ofNat 11 || c = Char.ofNat 12

/-- Strip Python whitespace from both ends of a character list (`str.strip`). -/
def pyStripL (s : List Char) : List Char :=
  ((s.dropWhile isPySpace).reverse.dropWhile isPySpace).reverse

/-- `str.strip` on strings. -/
def pyStrip (s : String) : String :=
  String.mk (pyStripL s.toList)

/-- ASCII lower-casing of one character (`str.lower`; every keyword the
source lower-cases against is ASCII). -/
def pyLowerChar (c : Char) : Char :=
  if 65 ≤ c.toNat ∧ c.toNat ≤ 90 then Char.ofNat (c.toNat + 32) else c

/-- Substring containment test (Python `in` on strings). -/
def containsSubL (pat s : List Char) : Bool :=
  s.tails.any (fun t => pat.isPrefixOf t)

/-- Replace every occurrence of `pat` (non-empty, left to right,
non-overlapping) by `repl`, Python `str.replace`.  Structural recursion on
an explicit fuel, consumed one character per step; `fuel = s.length`
suffices because each step drops at least one character of `s`. -/
def replaceL (pat repl : List Char) : Nat → List Char → List Char
  | 0, s => s
  | _ + 1, [] => []
  | fuel + 1, c :: rest =>
    if pat ≠ [] ∧ pat.isPrefixOf (c :: rest) then
      repl ++ replaceL pat repl fuel ((c :: rest).drop pat.length)
    else
      c :: replaceL pat repl fuel rest

/-- `str.replace` on strings. -/
def pyReplace (s pat repl : String) : String :=
  String.mk (replaceL pat.toList repl.toList s.toList.length s.toList)

/-- Split a character list at newline characters (`str.splitlines`,
specialised to newline-separated text as in the rule files). -/
def splitLinesL : List Char → List (List Char)
  | [] => [[]]
  | c :: rest =>
    match splitLinesL rest with
    | [] => [[c]]
    | l :: ls => if c = Char.ofNat 10 then [] :: l :: ls else (c :: l) :: ls

/-- Line splitting on strings. -/
def splitLines (text : String) : List String :=
  (splitLinesL text.toList).map String.mk

/-!  The rule parser `_basic_parse_conditions`. -/

/-- The value stored per lead status by the parser:
`{"allowed_followups": [...], "raw": <block>}`. -/
structure Block where
  allowed_followups : List String
  raw : String
deriving DecidableEq

/-- The parser's result dictionary, as an insertion-ordered association
list with unique keys (a Python `dict`). -/
abbrev Blocks := List (String × Block)

/-- Python `dict` assignment `blocks[k] = v`: overwrite in place when the
key exists, else append. -/
def setBlock (bs : Blocks) (k : String) (v : Block) : Blocks :=
  if bs.any (fun p => p.1 == k) then
    bs.map (fun p => if p.1 == k then (k, v) else p)
  else
    bs ++ [(k, v)]

/-- Python `dict.get`. -/
def getBlock (bs : Blocks) (k : String) : Option Block :=
  (bs.find? (fun p => p.1 == k)).map (fun p => p.2)

/-- In-place mutation of the entry at key `k` (`blocks[k]["raw"] += ...`,
`blocks[k]["allowed_followups"].append(...)`). -/
def modifyBlock (bs : Blocks) (k : String) (f : Block → Block) : Blocks :=
  bs.map (fun p => if p.1 == k then (k, f p.2) else p)

/-- The regex `^\d+\.\s+(.*)$` of the source, returning the stripped
capture group when the (already stripped) line matches: one or more
digits, a literal dot, one or more whitespace characters, then the rest.
The same pattern decides the `re.match(r"^\d+\.\s+", line)` test further
down the loop, which matches exactly when this returns `some`. -/
def matchNumbered (line : List Char) : Option String :=
  let ds := line.takeWhile Char.isDigit
  match line.drop ds.length with
  | c :: rest =>
    if ds ≠ [] ∧ c = '.' then
      let ws := rest.takeWhile isPySpace
      if ws = [] then none
      else some (String.mk (pyStripL (rest.drop ws.length)))
    else none
  | [] => none

/-- The keyword test
`any(keyword in line.lower() for keyword in ["status options", "next actions"])`. -/
def hasSectionKeyword (line : List Char) : Bool :=
  let lower := line.map pyLowerChar
  containsSubL "status options".toList lower ||
  containsSubL "next actions".toList lower

/-- The case-insensitive search
`re.search(r"response|callback|scheduled|engagement|feedback|waiting", line, re.I)`. -/
def hasFollowupWord (line : List Char) : Bool :=
  let lower := line.map pyLowerChar
  [ "response", "callback", "scheduled", "engagement", "feedback", "waiting"
  ].any (fun w => containsSubL w.toList lower)

/-- The character class `[•\-*\s\d.🔥⏳✅]` stripped from the front of an
option line by `re.sub`. -/
def isBulletChar (c : Char) : Bool :=
  c = '•' || c = '-' || c = '*' || isPySpace c || c.isDigit || c = '.' ||
  c = '🔥' || c = '⏳' || c = '✅'

/-- Extract one candidate option from a line: strip leading bullet
characters, keep only the phrase before the first dash
(`re.split(r"\s*[-–]\s*", option)[0]`, whose first field is the text
before the first `-` or `–` up to surrounding whitespace, removed here by
the final strip), and strip. -/
def extractOption (line : List Char) : String :=
  let afterBullet := pyStripL (line.dropWhile isBulletChar)
  String.mk (pyStripL (afterBullet.takeWhile (fun c => ¬ (c = '-' ∨ c = '–'))))

/-- Boolean decision procedure for the lexicographic (code-point) strict
order on character lists, the order Python uses to compare strings. -/
def ltCharsB : List Char → List Char → Bool
  | [], [] => false
  | [], _ :: _ => true
  | _ :: _, [] => false
  | a :: as, b :: bs =>
    if a < b then true
    else if b < a then false
    else ltCharsB as bs

/-- Boolean test for Python string `<=` (code-point lexicographic). -/
def strLeB (a b : String) : Bool :=
  ! ltCharsB b.toList a.toList

/-- The order Python `sorted` uses on strings, as a proposition. -/
def strLe (a b : String) : Prop :=
  strLeB a b = true

instance : DecidableRel strLe := fun a b => instDecidableEqBool (strLeB a b) true

/-- Python `sorted(set(xs))` on strings: the distinct elements in
ascending lexicographic (code-point) order. -/
def dedupSort (xs : List String) : List String :=
  List.insertionSort strLe xs.dedup

/-- State of the line loop of `_basic_parse_conditions`: the dictionary
built so far and the `current_status` variable. -/
structure ParseState where
  blocks : Blocks
  current : Option String
deriving DecidableEq

/-- One iteration of the line loop of `_basic_parse_conditions`. -/
def processLine (st : ParseState) (rawLine : String) : ParseState :=
  let line := pyStrip rawLine
  if line = "" then st
  else
    match matchNumbered line.toList with
    | some status =>
      { blocks := setBlock st.blocks status ⟨[], ""⟩, current := some status }
    | none =>
      match st.current with
      | none => st
      | some cur =>
        let bs := modifyBlock st.blocks cur
          (fun b => { b with raw := b.raw ++ line ++ "\n" })
        if hasSectionKeyword line.toList then
          { blocks := bs, current := some cur }
        else if hasFollowupWord line.toList then
          { blocks := modifyBlock bs cur
              (fun b => { b with
                allowed_followups := b.allowed_followups ++ [extractOption line.toList] }),
            current := some cur }
        else
          { blocks := bs, current := some cur }

/-- `_basic_parse_conditions`: run the line loop over the split text, then
deduplicate and sort each `allowed_followups` list. -/
def _basic_parse_conditions (text : String) : Blocks :=
  let final := (splitLines text).foldl processLine ⟨[], none⟩
  final.blocks.map (fun p =>
    (p.1, { p.2 with allowed_followups := dedupSort p.2.allowed_followups }))

/-- `load_rules`: the file system is passed in as the optional contents of
`conditions.txt`; an absent file raises `FileNotFoundError`, otherwise the
text is read and parsed. -/
def load_rules (conditionFile : Option String) : Except String Blocks :=
  match conditionFile with
  | none => Except.error "FileNotFoundError: Missing conditions.txt"
  | some text => Except.ok (_basic_parse_conditions text)

/-!  Validation logic of `rules_engine.py`. -/

/-- Bill range mapping for core lead statuses (`BILL_RULES`); `none`
bounds are open ends.  A status not listed is not a key of the dict. -/
def BILL_RULES (leadStatus : String) : Option (Option ℚ × Option ℚ) :=
  if leadStatus = "Cold Lead" then some (none, some 999)
  else if leadStatus = "Warm Lead" then some (some 1000, some 1999)
  else if leadStatus = "Hot Lead" then some (some 2000, none)
  else none

/-- Render a rational for an f-string interpolation.  Python prints the
bill as a float (for example `500.0`); the exact rendering is abstracted
since no behaviour of the program depends on the text of a reason. -/
def fmtQ (q : ℚ) : String :=
  toString q

/-- `low is not None and bill < low`: the lower-bound failure test. -/
def belowMin (low : Option ℚ) (b : ℚ) : Bool :=
  match low with
  | some l => decide (b < l)
  | none => false

/-- `high is not None and bill > high`: the upper-bound failure test. -/
def aboveMax (high : Option ℚ) (b : ℚ) : Bool :=
  match high with
  | some h => decide (h < b)
  | none => false

/-- The bill lies in the inclusive `[min, max]` range (open ends pass). -/
def inRangeB (b : ℚ) (r : Option ℚ × Option ℚ) : Bool :=
  !belowMin r.1 b && !aboveMax r.2 b

/-- `_check_bill_status`: `(True, None)` when the check cannot run or
passes, `(False, reason)` when the bill is outside the range. -/
def _check_bill_status (lead_status : String) (bill : Option ℚ) :
    Bool × Option String :=
  match bill, BILL_RULES lead_status with
  | some b, some (low, high) =>
    if belowMin low b then
      (false, some ("Highest_Bill " ++ fmtQ b ++ " is below minimum " ++
        (low.map fmtQ).getD "" ++ " for " ++ lead_status))
    else if aboveMax high b then
      (false, some ("Highest_Bill " ++ fmtQ b ++ " exceeds max " ++
        (high.map fmtQ).getD "" ++ " for " ++ lead_status))
    else (true, none)
  | _, _ => (true, none)

/-- `_suggest_lead_status_for_bill`. -/
def _suggest_lead_status_for_bill (bill : Option ℚ) : Option String :=
  match bill with
  | none => none
  | some b =>
    if b < 1000 then some "Cold Lead"
    else if b < 2000 then some "Warm Lead"
    else some "Hot Lead"

/-- The suggestion carried by an issue: a single (optional) corrected
lead status for bill issues, the full allowed list for follow-up
issues. -/
inductive Suggestion where
  | status : Option String → Suggestion
  | followups : List String → Suggestion
deriving DecidableEq

/-- One issue dict produced by `validate_row`.  `wrong` is `none` exactly
when Python stores `None` there. -/
structure Issue where
  column : String
  wrong : Option String
  reason : String
  suggestion : Suggestion
deriving DecidableEq

/-- One input record (a spreadsheet row).  A `none` field is an absent
cell; `Highest_Bill` is numeric when present. -/
structure Row where
  createdDate : Option Int
  leadName : Option String
  mobileNumber : Option String
  assignedTo : Option String
  leadStatus : Option String
  followupStatus : Option String
  highestBill : Option ℚ
deriving DecidableEq

/-- `str(row.get("Lead Status", "")).strip()`. -/
def leadStatusOf (row : Row) : String :=
  pyStrip (row.leadStatus.getD "")

/-- `(str(row.get("Followup Status", "")).strip() or None)`: Python `or`
turns an empty (falsy) string into `None`. -/
def followStatusOf (row : Row) : Option String :=
  let s := pyStrip (row.followupStatus.getD "")
  if s = "" then none else some s

/-- `lead_status.replace("🔥🔥", "").replace("✅", "").strip()`, the
marker-stripped lead status used for both rule lookups. -/
def strippedStatus (row : Row) : String :=
  pyStrip (pyReplace (pyReplace (leadStatusOf row) "🔥🔥" "") "✅" "")

/-- Python falsy-default `follow_status or "None"`. -/
def orNoneStr (s : Option String) : String :=
  match s with
  | none => "None"
  | some v => if v = "" then "None" else v

/-- Text of an optional string inside an f-string (`None` prints as the
word `None`). -/
def optText (s : Option String) : String :=
  match s with
  | none => "None"
  | some v => v

/-- A single apostrophe, used by the follow-up reason f-string. -/
def squote : String :=
  String.singleton (Char.ofNat 39)

/-- The bill / lead-status alignment check of `validate_row` (step 1):
the issue appended when `_check_bill_status` fails. -/
def billIssueList (row : Row) : List Issue :=
  let cb := _check_bill_status (strippedStatus row) row.highestBill
  if cb.1 then []
  else
    [{ column := "Lead Status",
       wrong := some (leadStatusOf row),
       reason := cb.2.getD "",
       suggestion := Suggestion.status (_suggest_lead_status_for_bill row.highestBill) }]

/-- The follow-up allowed-list check of `validate_row` (step 2). -/
def followupIssueList (rules : Blocks) (row : Row) : List Issue :=
  let allowed := ((getBlock rules (strippedStatus row)).map Block.allowed_followups).getD []
  if allowed ≠ [] ∧ orNoneStr (followStatusOf row) ∉ allowed then
    [{ column := "Followup Status",
       wrong := followStatusOf row,
       reason := squote ++ optText (followStatusOf row) ++ squote ++
         " not allowed for " ++ leadStatusOf row,
       suggestion := Suggestion.followups allowed }]
  else []

/-- `validate_row`: both checks applied independently, bill issue first.
The global `RULES` dictionary of the source (loaded once at import) is an
explicit parameter. -/
def validate_row (rules : Blocks) (row : Row) : List Issue :=
  billIssueList row ++ followupIssueList rules row

/-- The issues of a row that the bill-range check produced. -/
def billIssues (issues : List Issue) : List Issue :=
  issues.filter (fun i => i.column == "Lead Status")

/-- The issues of a row that the follow-up check produced. -/
def followupIssues (issues : List Issue) : List Issue :=
  issues.filter (fun i => i.column == "Followup Status")

/-!  The analyser `analyse_df` of `analyser.py`.

A pandas DataFrame of input records is a `List Row`; the three result
frames are lists of typed rows.  pandas behaviours the source relies on:
`groupby` sorts the group keys ascending and drops rows whose key is
missing; `merge(..., how="left")` keeps the left frame's rows and leaves
an absent match as a missing value, turned into `0` by `fillna(0)`.
When no row produced any issue, `by_employee` is the column-less
`pd.DataFrame()` of the `else` branch, and merging it `on="Assigned To"`
raises a `KeyError` because the right frame has no such column; the
embedding returns that error through `Except`. -/

/-- One row of the `faulty_df` issue table. -/
structure IssueRec where
  createdDate : Option Int
  leadName : Option String
  mobileNumber : Option String
  assignedTo : Option String
  issueColumn : String
  wrongValue : Option String
  suggestion : Suggestion
  reason : String
deriving DecidableEq

/-- The issue-table rows contributed by one record. -/
def rowIssueRecs (rules : Blocks) (row : Row) : List IssueRec :=
  (validate_row rules row).map (fun i =>
    { createdDate := row.createdDate,
      leadName := row.leadName,
      mobileNumber := row.mobileNumber,
      assignedTo := row.assignedTo,
      issueColumn := i.column,
      wrongValue := i.wrong,
      suggestion := i.suggestion,
      reason := i.reason })

/-- The flat issue list collected over all records, in input order. -/
def issuesList (rules : Blocks) (df : List Row) : List IssueRec :=
  df.flatMap (rowIssueRecs rules)

/-- `pd.to_datetime(ms, unit="ms").date`: the calendar day as a day
number, floor division of the millisecond timestamp by one day. -/
def dateOf (ms : Int) : Int :=
  Int.fdiv ms 86400000

/-- `frame.groupby(key).size()`: per distinct key (missing keys dropped
beforehand by `filterMap`, as pandas drops them), the number of
occurrences; keys ascending. -/
def groupbySize {K : Type} (r : K → K → Prop) [DecidableRel r] [DecidableEq K]
    (ks : List K) : List (K × Nat) :=
  (List.insertionSort r ks.dedup).map (fun k => (k, ks.count k))

/-- The `by_date` table (the `pd.DataFrame()` of the `else` branch is the
empty table). -/
def byDate (issues : List IssueRec) : List (Int × Nat) :=
  if issues.isEmpty then []
  else groupbySize (fun a b : Int => a ≤ b)
    (issues.filterMap (fun r => r.createdDate.map dateOf))

/-- The `by_employee` table; `none` models the column-less
`pd.DataFrame()` produced when there are no issues at all. -/
def byEmployee (issues : List IssueRec) : Option (List (String × Nat)) :=
  if issues.isEmpty then none
  else some (groupbySize strLe (issues.filterMap IssueRec.assignedTo))

/-- One row of the accuracy table `merged`. -/
structure AccRow where
  assignedTo : String
  total : Nat
  faultCount : Nat
  correct : Int
deriving DecidableEq

/-- `analyse_df`: collect issues, aggregate by date and employee, and
left-join employee totals with fault counts (`fillna(0)`,
`Correct = Total - Fault Count`).  Merging against the column-less empty
frame raises `KeyError`. -/
def analyse_df (rules : Blocks) (df : List Row) :
    Except String (List IssueRec × List (Int × Nat) × List AccRow) :=
  let issues := issuesList rules df
  let bd := byDate issues
  match byEmployee issues with
  | none => Except.error "KeyError: Assigned To"
  | some be =>
    let totals := groupbySize strLe (df.filterMap Row.assignedTo)
    let merged := totals.map (fun p =>
      let f := (((be.find? (fun q => q.1 == p.1)).map (fun q => q.2)).getD 0)
      { assignedTo := p.1, total := p.2, faultCount := f,
        correct := (p.2 : Int) - (f : Int) })
    Except.ok (issues, bd, merged)

/-!  Properties of the embedded string order. -/

/-- `ltCharsB` decides exactly the lexicographic strict order `List.Lex`
on characters. -/
theorem ltCharsB_iff_lex (x : List Char) :
    ∀ y : List Char, ltCharsB x y = true ↔ List.Lex (· < ·) x y := by
  induction x with
  | nil =>
    intro y
    cases y with
    | nil => simp [ltCharsB]
    | cons b bs => simp [ltCharsB]; exact List.Lex.nil
  | cons a as ih =>
    intro y
    cases y with
    | nil =>
      simp [ltCharsB]
    | cons b bs =>
      by_cases hab : a < b
      · simp [ltCharsB, hab]
        exact List.Lex.rel hab
      · by_cases hba : b < a
        · simp [ltCharsB, hab, hba]
          intro h
          cases h with
          | cons h => exact lt_irrefl a hba
          | rel h => exact hab h
        · have hei : a = b := le_antisymm (not_lt.mp hba) (not_lt.mp hab)
          subst hei
          simp [ltCharsB, hab]
          constructor
          · intro h
            exact List.Lex.cons ((ih bs).mp h)
          · intro h
            cases h with
            | cons h => exact (ih bs).mpr h
            | rel h => exact absurd h hab

/-- `strLeB` decides the ambient linear order on `String`. -/
theorem strLeB_iff_le (a b : String) : strLeB a b = true ↔ a ≤ b := by
  have hx : ltCharsB b.toList a.toList = true ↔ b < a :=
    (ltCharsB_iff_lex b.toList a.toList).trans (Iff.symm String.lt_iff_toList_lt)
  unfold strLeB
  rw [Bool.not_eq_true', ← not_lt]
  constructor
  · intro h hba
    rw [hx.mpr hba] at h
    exact absurd h (by decide)
  · intro h
    by_contra hc
    rw [Bool.not_eq_false] at hc
    exact h (hx.mp hc)

instance : IsTrans String strLe :=
  ⟨fun a b c hab hbc =>
    (strLeB_iff_le a c).mpr
      (le_trans ((strLeB_iff_le a b).mp hab) ((strLeB_iff_le b c).mp hbc))⟩

instance : IsTotal String strLe :=
  ⟨fun a b =>
    (le_total a b).imp (strLeB_iff_le a b).mpr (strLeB_iff_le b a).mpr⟩

/-- The result of `dedupSort` is sorted in ascending string order. -/
theorem dedupSort_sorted (xs : List String) :
    List.Sorted (· ≤ ·) (dedupSort xs) :=
  (List.sorted_insertionSort strLe xs.dedup).imp
    (fun h => (strLeB_iff_le _ _).mp h)

/-- The result of `dedupSort` has no duplicates. -/
theorem dedupSort_nodup (xs : List String) : (dedupSort xs).Nodup :=
  (List.perm_insertionSort strLe xs.dedup).nodup_iff.mpr (List.nodup_dedup xs)

/-!  Helper lemmas about the two checks of `validate_row`. -/

theorem billIssues_append (xs ys : List Issue) :
    billIssues (xs ++ ys) = billIssues xs ++ billIssues ys := by
  unfold billIssues
  rw [List.filter_append]

theorem followupIssues_append (xs ys : List Issue) :
    followupIssues (xs ++ ys) = followupIssues xs ++ followupIssues ys := by
  unfold followupIssues
  rw [List.filter_append]

/-- The follow-up check never contributes a `Lead Status` issue. -/
theorem billIssues_followupIssueList (rules : Blocks) (row : Row) :
    billIssues (followupIssueList rules row) = [] := by
  simp only [followupIssueList]
  split
  · simp [billIssues]
  · simp [billIssues]

/-- The bill check never contributes a `Followup Status` issue. -/
theorem followupIssues_billIssueList (row : Row) :
    followupIssues (billIssueList row) = [] := by
  simp only [billIssueList]
  split
  · simp [followupIssues]
  · simp [followupIssues]

/-- When the bill check passes, it contributes no issue. -/
theorem billIssueList_of_pass (row : Row)
    (h : (_check_bill_status (strippedStatus row) row.highestBill).1 = true) :
    billIssueList row = [] := by
  simp only [billIssueList]
  rw [h]
  simp

/-- When the bill check fails, it contributes exactly one issue whose
suggestion is `_suggest_lead_status_for_bill` of the bill. -/
theorem billIssueList_of_fail (row : Row)
    (h : (_check_bill_status (strippedStatus row) row.highestBill).1 = false) :
    (billIssueList row).map Issue.suggestion =
      [Suggestion.status (_suggest_lead_status_for_bill row.highestBill)] := by
  simp only [billIssueList]
  rw [h]
  simp

/-- `billIssues` keeps the bill-check issue. -/
theorem billIssues_billIssueList (row : Row) :
    billIssues (billIssueList row) = billIssueList row := by
  simp only [billIssueList]
  split
  · simp [billIssues]
  · simp [billIssues]

/-- `_check_bill_status` passes when the status is a key of the range
table and the bill lies inside the inclusive range. -/
theorem check_pass (s : String) (b : ℚ) (lo hi : Option ℚ)
    (hrule : BILL_RULES s = some (lo, hi))
    (hin : inRangeB b (lo, hi) = true) :
    _check_bill_status s (some b) = (true, none) := by
  unfold inRangeB at hin
  rw [Bool.and_eq_true, Bool.not_eq_true', Bool.not_eq_true'] at hin
  unfold _check_bill_status
  rw [hrule]
  simp [hin.1, hin.2]

/-- `_check_bill_status` fails when the status is a key of the range
table and the bill lies outside the inclusive range. -/
theorem check_fail (s : String) (b : ℚ) (lo hi : Option ℚ)
    (hrule : BILL_RULES s = some (lo, hi))
    (hout : inRangeB b (lo, hi) = false) :
    (_check_bill_status s (some b)).1 = false := by
  unfold inRangeB at hout
  rw [Bool.and_eq_false_iff, Bool.not_eq_false', Bool.not_eq_false'] at hout
  unfold _check_bill_status
  rw [hrule]
  rcases hout with h | h
  · simp [h]
  · by_cases hb : belowMin lo b
    · simp [hb]
    · simp [hb, h]

/-- The suggestion threshold function exactly as the specification words
it, for comparison with the code's `_suggest_lead_status_for_bill`. -/
def spec_threshold_status (b : ℚ) : String :=
  if b < 1000 then "Cold Lead" else if b < 2000 then "Warm Lead" else "Hot Lead"

/-- On a present bill the code's suggestion is the spec's threshold
function. -/
theorem suggest_eq_spec (b : ℚ) :
    _suggest_lead_status_for_bill (some b) = some (spec_threshold_status b) := by
  simp only [_suggest_lead_status_for_bill, spec_threshold_status]
  split_ifs <;> rfl

/-- C2: for every rule table and record whose marker-stripped lead status
is a key of the bill-range table (one of the three known statuses) and
whose bill is present and lies inside that status's inclusive
`[min, max]` range, the bill-range check emits no issue. -/
theorem c2_bill_in_range_no_issue (rules : Blocks) (row : Row) (b : ℚ)
    (lo hi : Option ℚ)
    (hbill : row.highestBill = some b)
    (hrule : BILL_RULES (strippedStatus row) = some (lo, hi))
    (hin : inRangeB b (lo, hi) = true) :
    billIssues (validate_row rules row) = [] := by
  have hc : (_check_bill_status (strippedStatus row) row.highestBill).1 = true := by
    rw [hbill, check_pass (strippedStatus row) b lo hi hrule hin]
  unfold validate_row
  rw [billIssues_append, billIssues_followupIssueList, List.append_nil,
    billIssues_billIssueList, billIssueList_of_pass row hc]

/-- C3: for every rule table and record whose marker-stripped lead status
is a key of the bill-range table and whose bill is present and falls
outside the inclusive range, the bill-range check emits exactly one
issue, and the suggested corrected lead status is the spec's threshold
function of the bill (below 1000 Cold, below 2000 Warm, else Hot). -/
theorem c3_bill_out_of_range_single_issue (rules : Blocks) (row : Row)
    (b : ℚ) (lo hi : Option ℚ)
    (hbill : row.highestBill = some b)
    (hrule : BILL_RULES (strippedStatus row) = some (lo, hi))
    (hout : inRangeB b (lo, hi) = false) :
    (billIssues (validate_row rules row)).map Issue.suggestion =
      [Suggestion.status (some (spec_threshold_status b))] := by
  have hc : (_check_bill_status (strippedStatus row) row.highestBill).1 = false := by
    rw [hbill]
    exact check_fail (strippedStatus row) b lo hi hrule hout
  unfold validate_row
  rw [billIssues_append, billIssues_followupIssueList, List.append_nil,
    billIssues_billIssueList, billIssueList_of_fail row hc, hbill,
    suggest_eq_spec]

/-- C6: for every rule table and record whose bill is missing or whose
marker-stripped lead status is not a key of the bill-range table, the
bill-range check emits no issue and no error is raised: the result of
validation is exactly the follow-up check's result. -/
theorem c6_bill_check_skipped (rules : Blocks) (row : Row)
    (h : row.highestBill = none ∨ BILL_RULES (strippedStatus row) = none) :
    billIssues (validate_row rules row) = [] ∧
    validate_row rules row = followupIssueList rules row := by
  have hc : (_check_bill_status (strippedStatus row) row.highestBill).1 = true := by
    unfold _check_bill_status
    rcases h with h | h
    · rw [h]
    · rw [h]
      cases hx : row.highestBill <;> rfl
  have hb : billIssueList row = [] := billIssueList_of_pass row hc
  constructor
  · unfold validate_row
    rw [billIssues_append, billIssues_followupIssueList, List.append_nil,
      billIssues_billIssueList, hb]
  · unfold validate_row
    rw [hb, List.nil_append]

/-- C10: on the gaps of the bill-range table (a Cold Lead bill strictly
between 999 and 1000 or a Warm Lead bill strictly between 1999 and 2000)
the bill check fires, yet the issue's suggested lead status equals the
record's current (marker-stripped) lead status. -/
theorem c10_gap_suggests_current_status (rules : Blocks) (row : Row) (b : ℚ)
    (hbill : row.highestBill = some b)
    (hcase : (strippedStatus row = "Cold Lead" ∧ 999 < b ∧ b < 1000) ∨
      (strippedStatus row = "Warm Lead" ∧ 1999 < b ∧ b < 2000)) :
    (billIssues (validate_row rules row)).map Issue.suggestion =
      [Suggestion.status (some (strippedStatus row))] := by
  rcases hcase with ⟨hs, hlo, hhi⟩ | ⟨hs, hlo, hhi⟩
  · have hrule : BILL_RULES (strippedStatus row) = some (none, some 999) := by
      rw [hs]
      rfl
    have hout : inRangeB b (none, some 999) = false := by
      unfold inRangeB belowMin aboveMax
      simp [hlo]
    have hc : (_check_bill_status (strippedStatus row) row.highestBill).1 = false := by
      rw [hbill]
      exact check_fail (strippedStatus row) b none (some 999) hrule hout
    unfold validate_row
    rw [billIssues_append, billIssues_followupIssueList, List.append_nil,
      billIssues_billIssueList, billIssueList_of_fail row hc, hbill, hs]
    simp only [_suggest_lead_status_for_bill]
    rw [if_pos hhi]
  · have hrule : BILL_RULES (strippedStatus row) = some (some 1000, some 1999) := by
      rw [hs]
      rfl
    have hout : inRangeB b (some 1000, some 1999) = false := by
      unfold inRangeB belowMin aboveMax
      simp [hlo]
    have hc : (_check_bill_status (strippedStatus row) row.highestBill).1 = false := by
      rw [hbill]
      exact check_fail (strippedStatus row) b (some 1000) (some 1999) hrule hout
    unfold validate_row
    rw [billIssues_append, billIssues_followupIssueList, List.append_nil,
      billIssues_billIssueList, billIssueList_of_fail row hc, hbill, hs]
    simp only [_suggest_lead_status_for_bill]
    have h1 : ¬ b < 1000 := by
      intro hcon
      exact absurd (lt_trans hlo hcon) (by norm_num)
    rw [if_neg h1, if_pos hhi]

/-- `followupIssues` keeps the follow-up-check issue. -/
theorem followupIssues_followupIssueList (rules : Blocks) (row : Row) :
    followupIssues (followupIssueList rules row) = followupIssueList rules row := by
  simp only [followupIssueList]
  split
  · simp [followupIssues]
  · simp [followupIssues]

/-- When the allowed list of the looked-up status is non-empty and the
(defaulted) follow-up value is not in it, the follow-up check emits
exactly its one issue, whose `wrong` field is the raw optional follow-up
value. -/
theorem followupIssueList_fires (rules : Blocks) (row : Row) (blk : Block)
    (hblk : getBlock rules (strippedStatus row) = some blk)
    (hne : blk.allowed_followups ≠ [])
    (hnot : orNoneStr (followStatusOf row) ∉ blk.allowed_followups) :
    followupIssueList rules row =
      [{ column := "Followup Status",
         wrong := followStatusOf row,
         reason := squote ++ optText (followStatusOf row) ++ squote ++
           " not allowed for " ++ leadStatusOf row,
         suggestion := Suggestion.followups blk.allowed_followups }] := by
  simp only [followupIssueList, hblk, Option.map_some', Option.getD_some]
  rw [if_pos ⟨hne, hnot⟩]

/-- C4 (amended): for every rule table and record whose follow-up field
is absent or blank and whose marker-stripped lead status has a non-empty
allowed list not containing the placeholder string `"None"`, the
follow-up check fires exactly once, and the issue's wrong-value field is
the absent value `None` (`Option.none`), not the literal string
`"None"`. -/
theorem c4_absent_followup_flagged (rules : Blocks) (row : Row) (blk : Block)
    (habsent : followStatusOf row = none)
    (hblk : getBlock rules (strippedStatus row) = some blk)
    (hne : blk.allowed_followups ≠ [])
    (hnone : "None" ∉ blk.allowed_followups) :
    (followupIssues (validate_row rules row)).map Issue.wrong = [none] := by
  have hnot : orNoneStr (followStatusOf row) ∉ blk.allowed_followups := by
    rw [habsent]
    exact hnone
  have hf := followupIssueList_fires rules row blk hblk hne hnot
  unfold validate_row
  rw [followupIssues_append, followupIssues_billIssueList, List.nil_append,
    followupIssues_followupIssueList, hf]
  simp [habsent]

/-- C8: for every rules text and every entry of the parsed rule table,
the allowed-followups list is sorted in ascending string order and has no
duplicate entries. -/
theorem c8_followups_sorted_nodup (text k : String) (blk : Block)
    (hmem : (k, blk) ∈ _basic_parse_conditions text) :
    List.Sorted (· ≤ ·) blk.allowed_followups ∧ blk.allowed_followups.Nodup := by
  simp only [_basic_parse_conditions, List.mem_map] at hmem
  obtain ⟨p, hp, heq⟩ := hmem
  injection heq with h1 h2
  subst h2
  exact ⟨dedupSort_sorted _, dedupSort_nodup _⟩

/-- C7: modelling the file system as the optional contents of the rules
file, loading with an absent file raises (startup aborts), and loading an
existing file returns the parse of its text without raising. -/
theorem c7_load_rules_error_handling :
    (∃ msg, load_rules none = Except.error msg) ∧
    ∀ text, load_rules (some text) = Except.ok (_basic_parse_conditions text) :=
  ⟨⟨"FileNotFoundError: Missing conditions.txt", rfl⟩, fun _ => rfl⟩

/-- C9: the analyser is deterministic; with a fixed rule table, two runs
over the same record set produce identical issue, by-date and accuracy
tables (the embedding is a pure function of its inputs, exactly because
the source reads no other state during analysis). -/
theorem c9_analyser_deterministic (rules : Blocks) (df : List Row)
    (out₁ out₂ : Except String (List IssueRec × List (Int × Nat) × List AccRow))
    (h₁ : analyse_df rules df = out₁) (h₂ : analyse_df rules df = out₂) :
    out₁ = out₂ :=
  h₁ ▸ h₂

/-!  Concrete inputs used by counterexamples and witnesses. -/

/-- A rules file whose `2. Cold Lead` block carries the options inline on
the `Status Options:` header line, exactly as the claim C1 words it. -/
def inlineRulesText : String :=
  "2. Cold Lead\nStatus Options: No Response, Callback Scheduled"

/-- The same rules file with the options additionally listed as bullet
lines under the header. -/
def bulletRulesText : String :=
  "2. Cold Lead\nStatus Options: No Response, Callback Scheduled\n- No Response\n- Callback Scheduled"

/-- The raw block text the parser accumulates for `Cold Lead` from
`bulletRulesText`. -/
def coldRawText : String :=
  "Status Options: No Response, Callback Scheduled\n- No Response\n- Callback Scheduled\n"

/-- The record of the claim C1 example. -/
def exampleRecord : Row :=
  ⟨none, none, none, none, some "Cold Lead", some "Interested", some 500⟩

/-- A record with an absent follow-up value. -/
def absentFollowupRecord : Row :=
  ⟨none, none, none, none, some "Cold Lead", none, none⟩

/-- A Hot Lead billed exactly at the lower boundary of its range. -/
def hotBoundaryRecord : Row :=
  ⟨none, none, none, none, some "Hot Lead", none, some 2000⟩

/-- A Warm Lead billed below its range. -/
def warmLowRecord : Row :=
  ⟨none, none, none, none, some "Warm Lead", none, some 500⟩

/-- A record with a lead status unknown to the bill-range table. -/
def unknownStatusRecord : Row :=
  ⟨none, none, none, none, some "Prospect", none, some 5⟩

/-- A Cold Lead billed strictly between 999 and 1000. -/
def coldGapRecord : Row :=
  ⟨none, none, none, none, some "Cold Lead", none, some (mkRat 1999 2)⟩

/-- A one-record input that produces no issue at all. -/
def cleanDf : List Row :=
  [⟨some 1700000000000, some "Lead A", some "9999999999", some "Alice",
    some "Cold Lead", some "No Response", some 500⟩]

/-- C1 counterexample: on a rules file whose `2. Cold Lead` block carries
the claim's `Status Options: No Response, Callback Scheduled` line (and
nothing else), the parser skips that keyword line, the allowed list stays
empty, and validating the claim's record yields no issue at all instead
of one follow-up issue. -/
theorem c1_counterexample :
    validate_row (_basic_parse_conditions inlineRulesText) exampleRecord = [] := by
  decide

/-- C1 (amended): when the `2. Cold Lead` block lists the options on
bullet lines under the `Status Options:` header (which itself contributes
no options), validating the record with follow-up `Interested` and bill
500 yields exactly one issue: a follow-up issue with wrong value
`Interested` and suggestion `[Callback Scheduled, No Response]`, and
zero bill issues. -/
theorem c1_amended_example :
    (validate_row (_basic_parse_conditions bulletRulesText) exampleRecord).map
      (fun i => (i.column, i.wrong, i.suggestion)) =
    [("Followup Status", some "Interested",
      Suggestion.followups ["Callback Scheduled", "No Response"])] := by
  decide

/-- C4 counterexample: on an absent follow-up the check does fire once,
but the issue's wrong-value field is the absent value, not the literal
string `None`. -/
theorem c4_counterexample :
    (followupIssues (validate_row (_basic_parse_conditions bulletRulesText)
        absentFollowupRecord)).map Issue.wrong ≠ [some "None"] ∧
    (followupIssues (validate_row (_basic_parse_conditions bulletRulesText)
        absentFollowupRecord)).length = 1 := by
  exact ⟨by decide, by decide⟩

/-- C5: on an input whose single record (employee Alice) produces no
issue, the analyser does not report Alice with fault count 0; it raises
`KeyError` while merging the employee totals against the column-less
empty by-employee frame. -/
theorem c5_zero_fault_employee_keyerror :
    issuesList (_basic_parse_conditions bulletRulesText) cleanDf = [] ∧
    analyse_df (_basic_parse_conditions bulletRulesText) cleanDf =
      Except.error "KeyError: Assigned To" :=
  ⟨by decide, rfl⟩

/-!  Witnesses. -/

/-- C2 witness: a Hot Lead billed exactly 2000 draws no bill issue. -/
theorem c2_witness : billIssues (validate_row [] hotBoundaryRecord) = [] :=
  c2_bill_in_range_no_issue [] hotBoundaryRecord 2000 (some 2000) none rfl
    (by decide) (by decide)

/-- C3 witness: a Warm Lead billed 500 draws exactly one bill issue whose
suggestion is the threshold status of 500, Cold Lead. -/
theorem c3_witness :
    (billIssues (validate_row [] warmLowRecord)).map Issue.suggestion =
      [Suggestion.status (some (spec_threshold_status 500))] :=
  c3_bill_out_of_range_single_issue [] warmLowRecord 500 (some 1000) (some 1999)
    rfl (by decide) (by decide)

/-- C4 witness: the amended claim at the concrete rules file and record. -/
theorem c4_witness :
    (followupIssues (validate_row (_basic_parse_conditions bulletRulesText)
        absentFollowupRecord)).map Issue.wrong = [none] :=
  c4_absent_followup_flagged (_basic_parse_conditions bulletRulesText)
    absentFollowupRecord ⟨["Callback Scheduled", "No Response"], coldRawText⟩
    (by decide) (by decide) (by decide) (by decide)

/-- C6 witness: an unknown lead status with a present bill draws no bill
issue and validation reduces to the follow-up check. -/
theorem c6_witness :
    billIssues (validate_row [] unknownStatusRecord) = [] ∧
    validate_row [] unknownStatusRecord = followupIssueList [] unknownStatusRecord :=
  c6_bill_check_skipped [] unknownStatusRecord (Or.inr (by decide))

/-- C8 witness: the parsed allowed list of the concrete rules file is
sorted and duplicate-free. -/
theorem c8_witness :
    List.Sorted (· ≤ ·) (["Callback Scheduled", "No Response"] : List String) ∧
    (["Callback Scheduled", "No Response"] : List String).Nodup :=
  c8_followups_sorted_nodup bulletRulesText "Cold Lead"
    ⟨["Callback Scheduled", "No Response"], coldRawText⟩ (by decide)

/-- C9 witness: two runs of the analyser on the concrete input agree. -/
theorem c9_witness :
    analyse_df (_basic_parse_conditions bulletRulesText) cleanDf =
      analyse_df (_basic_parse_conditions bulletRulesText) cleanDf :=
  c9_analyser_deterministic (_basic_parse_conditions bulletRulesText) cleanDf
    (analyse_df (_basic_parse_conditions bulletRulesText) cleanDf)
    (analyse_df (_basic_parse_conditions bulletRulesText) cleanDf) rfl rfl

/-- C10 witness: a Cold Lead billed 999.5 draws a bill issue whose
suggestion is again Cold Lead. -/
theorem c10_witness :
    (billIssues (validate_row [] coldGapRecord)).map Issue.suggestion =
      [Suggestion.status (some (strippedStatus coldGapRecord))] :=
  c10_gap_suggests_current_status [] coldGapRecord (mkRat 1999 2) rfl
    (Or.inl ⟨by decide, by decide, by decide⟩)
